import Mathlib

/-!
Verification of the Dashboard Query Service (src/backend/main.py).

The service consists of two constant in-memory tables (`patients_data`,
`metrics_data`) and five read-only HTTP handlers (`root`, `get_patients`,
`get_metrics`, `get_status`, `get_server_status`).  We embed the tables as
Lean lists (the Python dict `metrics_data` becomes an association list in
insertion order), floating-point literals as exact rationals, and each
handler as a function from an explicit server state to a response paired
with the successor state, so that absence of mutation is a provable fact
rather than an assumption.
-/

namespace VascularAI

/-- One row of `patients_data` (a PatientRecord of the spec).
`inferenceTime` is `none` where the source has `None`. -/
structure PatientRecord where
  id : String
  name : String
  age : Nat
  status : String
  inferenceTime : Option ℚ
  result : String
  date : String
deriving DecidableEq

/-- One element of a `metrics_data` value list (a MetricEntry of the spec). -/
structure MetricEntry where
  metric : String
  value : ℚ
deriving DecidableEq

/-- The `patients_data` list from src/backend/main.py, lines 20-27, in
definition order. -/
def patients_data : List PatientRecord :=
  [⟨"Patient_001", "John Doe", 65, "completed", some (42/10), "Success", "2026-02-28"⟩,
   ⟨"Patient_002", "Jane Smith", 72, "completed", some (38/10), "Success", "2026-02-28"⟩,
   ⟨"Patient_003", "Robert Chen", 58, "processing", none, "Processing", "2026-03-01"⟩,
   ⟨"Patient_004", "Maria Garcia", 61, "completed", some (51/10), "Failed", "2026-02-27"⟩,
   ⟨"Patient_005", "David Kim", 55, "completed", some (35/10), "Success", "2026-02-27"⟩,
   ⟨"Patient_006", "Sarah Wilson", 68, "queued", none, "Queued", "2026-03-01"⟩]

/-- The `metrics_data` dict from src/backend/main.py, lines 29-50, as an
association list in the dict's insertion order. -/
def metrics_data : List (String × List MetricEntry) :=
  [("Patient_001", [⟨"clDice", 92/100⟩, ⟨"Dice Score", 88/100⟩, ⟨"IoU", 81/100⟩]),
   ("Patient_002", [⟨"clDice", 89/100⟩, ⟨"Dice Score", 85/100⟩, ⟨"IoU", 78/100⟩]),
   ("Patient_004", [⟨"clDice", 45/100⟩, ⟨"Dice Score", 38/100⟩, ⟨"IoU", 30/100⟩]),
   ("Patient_005", [⟨"clDice", 95/100⟩, ⟨"Dice Score", 91/100⟩, ⟨"IoU", 85/100⟩])]

/-- The server's in-memory state: the two module-level tables. -/
structure ServerState where
  patients : List PatientRecord
  metrics : List (String × List MetricEntry)
deriving DecidableEq

/-- The state at process start: both tables as defined in the source. -/
def initState : ServerState := ⟨patients_data, metrics_data⟩

/-- Response body of `GET /` (the `root` handler, lines 53-55). -/
structure RootPayload where
  message : String
  status : String
deriving DecidableEq

/-- Response body of `GET /api/status` (the `get_status` handler, lines 70-77). -/
structure StatusPayload where
  patientId : String
  progress : Nat
  stage : String
  message : String
deriving DecidableEq

/-- Response body of `GET /api/server` (the `get_server_status` handler,
lines 80-87). -/
structure ServerPayload where
  online : Bool
  version : String
  gpu : String
  modelVersion : String
deriving DecidableEq

/-- Result of `get_metrics`: either the entry list, or the body-level error
object `{"error": ...}` (the source signals the failure in the body, with
the same success status code). -/
inductive MetricsResult where
  | ok (entries : List MetricEntry)
  | err (error : String)
deriving DecidableEq

/-- Handler for `GET /` (lines 53-55): constant liveness payload. -/
def root (st : ServerState) : RootPayload × ServerState :=
  (⟨"VascularAI API v1.2.0", "online"⟩, st)

/-- Handler for `GET /api/patients` (lines 58-60): returns `patients_data`
unchanged. -/
def get_patients (st : ServerState) : List PatientRecord × ServerState :=
  (st.patients, st)

/-- Handler for `GET /api/metrics/{patient_id}` (lines 63-67): key lookup in
`metrics_data`, else the `"Patient not found"` error body. -/
def get_metrics (patient_id : String) (st : ServerState) :
    MetricsResult × ServerState :=
  match st.metrics.lookup patient_id with
  | some entries => (MetricsResult.ok entries, st)
  | none => (MetricsResult.err "Patient not found", st)

/-- Handler for `GET /api/status` (lines 70-77): fixed canned payload. -/
def get_status (st : ServerState) : StatusPayload × ServerState :=
  (⟨"Patient_003", 80, "Vessel Segmentation", "Processing Patient_003... 80%"⟩, st)

/-- Handler for `GET /api/server` (lines 80-87): fixed server-info payload. -/
def get_server_status (st : ServerState) : ServerPayload × ServerState :=
  (⟨true, "v1.2.0", "Apple M2 Pro", "VascularNet v2.1"⟩, st)

/-- One incoming request on the HTTP surface. -/
inductive Request where
  | rootReq
  | patientsReq
  | metricsReq (patient_id : String)
  | statusReq
  | serverReq
deriving DecidableEq

/-- One response body. -/
inductive Response where
  | rootRes (p : RootPayload)
  | patientsRes (ps : List PatientRecord)
  | metricsRes (m : MetricsResult)
  | statusRes (p : StatusPayload)
  | serverRes (p : ServerPayload)
deriving DecidableEq

/-- Dispatch of one request to its handler. -/
def handle : Request → ServerState → Response × ServerState
  | Request.rootReq, st => let r := root st; (Response.rootRes r.1, r.2)
  | Request.patientsReq, st => let r := get_patients st; (Response.patientsRes r.1, r.2)
  | Request.metricsReq pid, st => let r := get_metrics pid st; (Response.metricsRes r.1, r.2)
  | Request.statusReq, st => let r := get_status st; (Response.statusRes r.1, r.2)
  | Request.serverReq, st => let r := get_server_status st; (Response.serverRes r.1, r.2)

/-- The state after serving a sequence of requests. -/
def runState (reqs : List Request) (st : ServerState) : ServerState :=
  reqs.foldl (fun s r => (handle r s).2) st

/-- No handler mutates the server state. -/
theorem handle_preserves_state (r : Request) (st : ServerState) :
    (handle r st).2 = st := by
  cases r with
  | metricsReq pid =>
      simp only [handle, get_metrics]
      cases h : st.metrics.lookup pid <;> simp
  | rootReq => rfl
  | patientsReq => rfl
  | statusReq => rfl
  | serverReq => rfl

/-- Serving any sequence of requests leaves the state unchanged. -/
theorem runState_eq (reqs : List Request) (st : ServerState) :
    runState reqs st = st := by
  induction reqs generalizing st with
  | nil => rfl
  | cons r rs ih =>
      have h : runState (r :: rs) st = runState rs ((handle r st).2) := rfl
      rw [h, handle_preserves_state]
      exact ih st

/-- C1: for every string that is a key of `metrics_data`, `get_metrics`
returns exactly the entry sequence registered for that key, unmodified and
in its original order. -/
theorem getMetrics_key_returns_registered (p : String) (es : List MetricEntry)
    (h : metrics_data.lookup p = some es) :
    (get_metrics p initState).1 = MetricsResult.ok es := by
  simp [get_metrics, initState, h]

/-- Witness for C1 at `"Patient_001"`. -/
theorem getMetrics_key_returns_registered_w :
    (get_metrics "Patient_001" initState).1 =
      MetricsResult.ok
        [⟨"clDice", 92/100⟩, ⟨"Dice Score", 88/100⟩, ⟨"IoU", 81/100⟩] :=
  getMetrics_key_returns_registered "Patient_001"
    [⟨"clDice", 92/100⟩, ⟨"Dice Score", 88/100⟩, ⟨"IoU", 81/100⟩] rfl

/-- C2: for every string that is not a key of `metrics_data`, `get_metrics`
returns the error payload `{"error": "Patient not found"}`, and an error
payload arises in no other way and with no other message. -/
theorem getMetrics_unknown_key_error :
    (∀ s : String, metrics_data.lookup s = none →
      (get_metrics s initState).1 = MetricsResult.err "Patient not found") ∧
    (∀ (s e : String), (get_metrics s initState).1 = MetricsResult.err e →
      e = "Patient not found" ∧ metrics_data.lookup s = none) := by
  constructor
  · intro s h
    simp [get_metrics, initState, h]
  · intro s e h
    rcases hl : metrics_data.lookup s with _ | es
    · have hres : (get_metrics s initState).1 = MetricsResult.err "Patient not found" := by
        simp [get_metrics, initState, hl]
      rw [hres] at h
      injection h with h
      exact ⟨h.symm, rfl⟩
    · have hres : (get_metrics s initState).1 = MetricsResult.ok es := by
        simp [get_metrics, initState, hl]
      rw [hres] at h
      cases h

/-- Witness for C2: `"Patient_003"` is a valid patient id without metrics,
and the empty string is malformed; both hit the error branch. -/
theorem getMetrics_unknown_key_error_w :
    (get_metrics "Patient_003" initState).1 = MetricsResult.err "Patient not found" ∧
    (get_metrics "" initState).1 = MetricsResult.err "Patient not found" :=
  ⟨getMetrics_unknown_key_error.1 "Patient_003" rfl,
   getMetrics_unknown_key_error.1 "" rfl⟩

/-- C3: after any preceding request history, the patients endpoint returns
the same sequence of 6 records in definition order, whose first element has
id `"Patient_001"`, status `"completed"` and inferenceTime `4.2`. -/
theorem listPatients_constant_six (pre : List Request) :
    (handle Request.patientsReq (runState pre initState)).1 =
      Response.patientsRes patients_data ∧
    patients_data.length = 6 ∧
    patients_data.head? = some ⟨"Patient_001", "John Doe", 65, "completed",
      some (42/10), "Success", "2026-02-28"⟩ := by
  refine ⟨?_, rfl, rfl⟩
  rw [runState_eq]
  rfl

/-- C4: `get_status` returns the fixed canned payload whatever the server
state holds, so it is not computed from any patient record. -/
theorem getStatus_static_payload (st : ServerState) :
    (get_status st).1 =
      ⟨"Patient_003", 80, "Vessel Segmentation", "Processing Patient_003... 80%"⟩ :=
  rfl

/-- C5: `get_status` and `get_server_status` are pure constants: any two
calls, whatever states they observe, return identical payloads. -/
theorem status_and_server_pure_constants (st st' : ServerState) :
    (get_status st).1 = (get_status st').1 ∧
    (get_server_status st).1 = (get_server_status st').1 :=
  ⟨rfl, rfl⟩

/-- C6: every key of `metrics_data` is the id of some record of
`patients_data`, and since no request mutates the state this holds for the
whole process lifetime. -/
theorem metrics_keys_subset_patient_ids :
    (∀ k : String, k ∈ metrics_data.map Prod.fst →
      ∃ r ∈ patients_data, r.id = k) ∧
    (∀ reqs : List Request, runState reqs initState = initState) := by
  constructor
  · intro k hk
    fin_cases hk <;> decide
  · intro reqs
    exact runState_eq reqs initState

/-- Witness for C6 at key `"Patient_004"`. -/
theorem metrics_keys_subset_patient_ids_w :
    ∃ r ∈ patients_data, r.id = "Patient_004" :=
  metrics_keys_subset_patient_ids.1 "Patient_004" (by decide)

/-- C7: a record of `patients_data` carries an inferenceTime exactly when
its status is `"completed"`. -/
theorem inferenceTime_iff_completed (r : PatientRecord) (h : r ∈ patients_data) :
    r.inferenceTime.isSome = true ↔ r.status = "completed" := by
  fin_cases h <;> decide

/-- Witness for C7 at the third record, which is `"processing"` with a null
inferenceTime. -/
theorem inferenceTime_iff_completed_w :
    ((⟨"Patient_003", "Robert Chen", 58, "processing", none, "Processing",
        "2026-03-01"⟩ : PatientRecord).inferenceTime.isSome = true ↔
      (⟨"Patient_003", "Robert Chen", 58, "processing", none, "Processing",
        "2026-03-01"⟩ : PatientRecord).status = "completed") :=
  inferenceTime_iff_completed _
    (List.Mem.tail _ (List.Mem.tail _ (List.Mem.head _)))

/-- C8: the keys of `metrics_data` are exactly the ids of the
`patients_data` records with status `"completed"`. -/
theorem metrics_keys_eq_completed_ids (k : String) :
    k ∈ metrics_data.map Prod.fst ↔
      ∃ r ∈ patients_data, r.id = k ∧ r.status = "completed" := by
  constructor
  · intro hk
    fin_cases hk <;> decide
  · rintro ⟨r, hr, hid, hst⟩
    subst hid
    fin_cases hr <;> revert hst <;> decide

/-- Witness for C8 at key `"Patient_005"`. -/
theorem metrics_keys_eq_completed_ids_w :
    "Patient_005" ∈ metrics_data.map Prod.fst ↔
      ∃ r ∈ patients_data, r.id = "Patient_005" ∧ r.status = "completed" :=
  metrics_keys_eq_completed_ids "Patient_005"

/-- C9: every value sequence of `metrics_data` lists exactly the metrics
`"clDice"`, `"Dice Score"`, `"IoU"` in that order, hence is never empty,
and a successful `get_metrics` never returns an empty array. -/
theorem metrics_entries_names_nonempty :
    (∀ (k : String) (es : List MetricEntry), metrics_data.lookup k = some es →
      es.map MetricEntry.metric = ["clDice", "Dice Score", "IoU"] ∧ es ≠ []) ∧
    (∀ (k : String) (es : List MetricEntry),
      (get_metrics k initState).1 = MetricsResult.ok es → es ≠ []) := by
  have main : ∀ (k : String) (es : List MetricEntry),
      metrics_data.lookup k = some es →
      es.map MetricEntry.metric = ["clDice", "Dice Score", "IoU"] ∧ es ≠ [] := by
    intro k es h
    simp only [metrics_data, List.lookup] at h
    repeat' split at h
    all_goals first
      | exact Option.noConfusion h
      | (injection h with h
         subst h
         exact ⟨rfl, List.cons_ne_nil _ _⟩)
  refine ⟨main, ?_⟩
  intro k es h
  rcases hl : metrics_data.lookup k with _ | es'
  · have hres : (get_metrics k initState).1 = MetricsResult.err "Patient not found" := by
      simp [get_metrics, initState, hl]
    rw [hres] at h
    cases h
  · have hres : (get_metrics k initState).1 = MetricsResult.ok es' := by
      simp [get_metrics, initState, hl]
    rw [hres] at h
    injection h with h
    subst h
    exact (main k es' hl).2

/-- Witness for C9 at key `"Patient_002"`. -/
theorem metrics_entries_names_nonempty_w :
    ([⟨"clDice", 89/100⟩, ⟨"Dice Score", 85/100⟩,
        (⟨"IoU", 78/100⟩ : MetricEntry)].map MetricEntry.metric =
      ["clDice", "Dice Score", "IoU"]) ∧
    ([⟨"clDice", 89/100⟩, ⟨"Dice Score", 85/100⟩,
        (⟨"IoU", 78/100⟩ : MetricEntry)] : List MetricEntry) ≠ [] :=
  metrics_entries_names_nonempty.1 "Patient_002"
    [⟨"clDice", 89/100⟩, ⟨"Dice Score", 85/100⟩, ⟨"IoU", 78/100⟩] rfl

/-- C10: every metric value stored in `metrics_data` lies in the closed
interval `[0, 1]`. -/
theorem metric_values_in_unit_interval (kes : String × List MetricEntry)
    (hk : kes ∈ metrics_data) (e : MetricEntry) (he : e ∈ kes.2) :
    0 ≤ e.value ∧ e.value ≤ 1 := by
  fin_cases hk <;> fin_cases he <;> constructor <;> norm_num

/-- Witness for C10 at the `"IoU"` entry of `"Patient_004"`. -/
theorem metric_values_in_unit_interval_w :
    0 ≤ (⟨"IoU", 30/100⟩ : MetricEntry).value ∧
      (⟨"IoU", 30/100⟩ : MetricEntry).value ≤ 1 :=
  metric_values_in_unit_interval
    ("Patient_004", [⟨"clDice", 45/100⟩, ⟨"Dice Score", 38/100⟩, ⟨"IoU", 30/100⟩])
    (List.Mem.tail _ (List.Mem.tail _ (List.Mem.head _)))
    ⟨"IoU", 30/100⟩
    (List.Mem.tail _ (List.Mem.tail _ (List.Mem.head _)))

end VascularAI
